import Mathlib

/-!
Verification of the typingmind-mcp-server relay (src/index.js).

The server logic is embedded shallowly:
- JS strings are modelled as lists of characters (`Str`).
- JSON request/response payloads are modelled by the inductive type `Json`,
  with JS truthiness (`Json.truthy`) mirroring the `!x` checks of the source.
- The in-memory `userTokens` JS `Map` is an association list with `Map.set`
  and `Map.get` semantics (`mapSet` / `mapGet`).
- Handlers that call the Google vendor SDK take the vendor as a function
  argument and return the list of vendor calls they issued together with the
  HTTP response, so statements about which calls are made are provable.
- The unbounded `do ... while (pageToken)` pagination loop of
  `GET /api/drive/files` is embedded with an explicit fuel parameter; running
  out of fuel stands for divergence and never happens in the theorems below,
  whose hypotheses supply enough fuel for the vendor at hand.
-/

/-- JS strings, modelled as their character sequences. -/
abbrev Str := List Char

/-- JSON values as handled by the express body/query parsing in src/index.js. -/
inductive Json where
  | null : Json
  | bool (b : Bool) : Json
  | num (n : Int) : Json
  | str (s : Str) : Json
  | arr (elems : List Json) : Json
  | obj (fields : List (Str × Json)) : Json

/-- JS truthiness of a JSON value (arrays and objects are always truthy). -/
def Json.truthy : Json → Bool
  | .null => false
  | .bool b => b
  | .num n => n != 0
  | .str s => !s.isEmpty
  | .arr _ => true
  | .obj _ => true

/-- `Array.isArray` from the shape checks of the write/update handlers. -/
def Json.isArray : Json → Bool
  | .arr _ => true
  | _ => false

/-- The Google token object stored per session
(spec data model: access token, optional refresh token, optional expiry). -/
structure CredentialPair where
  access_token : Str
  refresh_token : Option Str
  expiry : Option Nat
deriving DecidableEq

/-- The in-memory `userTokens` map (src/index.js line 38), keyed by the
locally minted access token. -/
abbrev SessionMap := List (Str × CredentialPair)

/-- JS `Map.prototype.set`: replaces the value when the key is present,
otherwise inserts at the end. -/
def mapSet (m : SessionMap) (k : Str) (v : CredentialPair) : SessionMap :=
  match m with
  | [] => [(k, v)]
  | (k0, v0) :: rest => if k0 = k then (k, v) :: rest else (k0, v0) :: mapSet rest k v

/-- JS `Map.prototype.get`, returning `none` for a missing key. -/
def mapGet (m : SessionMap) (k : Str) : Option CredentialPair :=
  match m with
  | [] => none
  | (k0, v0) :: rest => if k0 = k then some v0 else mapGet rest k

/-- `generateAccessToken` (src/index.js lines 67-69):
`Math.random().toString(36).substring(2) + Date.now().toString(36)`.
The two nondeterministic inputs (the base-36 rendering of the random number
and of the clock) are passed explicitly; the function is a pure concatenation
and consults no other state. -/
def generateAccessToken (randomPart nowPart : Str) : Str :=
  randomPart ++ nowPart

/-- The store step of the OAuth callback (src/index.js line 161):
`userTokens.set(accessToken, tokens)`. -/
def store (m : SessionMap) (sessionId : Str) (pair : CredentialPair) : SessionMap :=
  mapSet m sessionId pair

/-- The lookup step of the request gate (src/index.js line 87):
`userTokens.get(token)`. -/
def resolve (m : SessionMap) (sessionId : Str) : Option CredentialPair :=
  mapGet m sessionId

/-- JS `String.prototype.startsWith`. -/
def jsStartsWith : Str → Str → Bool
  | _, [] => true
  | [], _ :: _ => false
  | c :: s, p :: ps => if c = p then jsStartsWith s ps else false

/-- JS `String.prototype.replace` with a plain-string pattern: replaces the
first (leftmost) occurrence only. -/
def replaceFirst : Str → Str → Str → Str
  | [], pat, rep => if pat.isEmpty then rep else []
  | c :: rest, pat, rep =>
    if jsStartsWith (c :: rest) pat then rep ++ (c :: rest).drop pat.length
    else c :: replaceFirst rest pat rep

/-- The literal `Bearer ` header marker checked by the gate. -/
def bearerMarker : Str := "Bearer ".toList

/-- The `authUrl` hint built by the gate (src/index.js lines 80 and 94):
`REDIRECT_URI.replace(..., ...) + ...` pointing at `/auth/google`. -/
def authUrlOf (redirectUri : Str) : Str :=
  replaceFirst redirectUri ("/auth/google/callback".toList) [] ++ "/auth/google".toList

/-- 401 body message when the Authorization header is missing or malformed. -/
def notAuthMsg : Str :=
  "User not authenticated. Please connect your account via the plugin.".toList

/-- 401 body message when the bearer token does not resolve in the map. -/
def invalidTokenMsg : Str :=
  "Invalid or expired token. Please reconnect your account.".toList

/-- Outcome of the `isAuthenticated` middleware: either a short-circuiting
401 JSON response with `error` and `authUrl` fields, or the resolved
credential pair attached to the request. -/
inductive GateResult where
  | reject (status : Nat) (error : Str) (authUrl : Str) : GateResult
  | authed (pair : CredentialPair) : GateResult

/-- The `isAuthenticated` middleware (src/index.js lines 72-107):
requires a truthy Authorization header starting with `Bearer `, takes
`substring(7)` as the token, and resolves it in `userTokens`. -/
def isAuthenticated (m : SessionMap) (redirectUri : Str) (authHeader : Option Str) :
    GateResult :=
  match authHeader with
  | none => GateResult.reject 401 notAuthMsg (authUrlOf redirectUri)
  | some h =>
    if h.isEmpty || !jsStartsWith h bearerMarker then
      GateResult.reject 401 notAuthMsg (authUrlOf redirectUri)
    else
      match mapGet m (h.drop 7) with
      | none => GateResult.reject 401 invalidTokenMsg (authUrlOf redirectUri)
      | some pair => GateResult.authed pair

/-- HTTP responses produced by the handlers: `res.status(s).json(body)`
(`res.json(body)` is status 200). -/
structure Resp where
  status : Nat
  body : Json

/-- A `files(id, name)` entry of a Drive listing page. -/
structure DriveFile where
  id : Str
  name : Str
deriving DecidableEq

/-- The payload of one `drive.files.list` response
(`response.data`): optional `files` array and optional `nextPageToken`. -/
structure DrivePage where
  files : Option (List DriveFile)
  nextPageToken : Option Str
deriving DecidableEq

/-- The argument object of one `drive.files.list` call
(src/index.js lines 260-264). -/
structure DriveListRequest where
  pageSize : Nat
  fields : Str
  pageToken : Option Str
deriving DecidableEq

/-- The literal `fields` filter sent on every page request. -/
def driveFields : Str := "nextPageToken, files(id, name)".toList

/-- JS truthiness of the loop variable `pageToken` (`while (pageToken)`):
absent or empty-string tokens are falsy. -/
def tokenTruthy : Option Str → Bool
  | none => false
  | some s => !s.isEmpty

/-- `pageToken || undefined` from the request object. -/
def jsOrUndefined (t : Option Str) : Option Str :=
  if tokenTruthy t then t else none

/-- The request object built on each loop iteration:
`pageSize: 1000, fields: ..., pageToken: pageToken || undefined`. -/
def mkDriveReq (pageToken : Option Str) : DriveListRequest :=
  ⟨1000, driveFields, jsOrUndefined pageToken⟩

/-- `if (response.data.files) allFiles = allFiles.concat(response.data.files)`
(src/index.js lines 265-267): a missing `files` field is skipped. -/
def pageFiles (allFiles : List DriveFile) (page : DrivePage) : List DriveFile :=
  match page.files with
  | some fs => allFiles ++ fs
  | none => allFiles

/-- Model artifact standing for divergence of the unbounded page loop. -/
def fuelExhausted : Str := "model: page loop fuel exhausted".toList

/-- The `do ... while (pageToken)` pagination loop of `GET /api/drive/files`
(src/index.js lines 259-269), with the vendor `drive.files.list` passed as a
function. The first component of the result is the sequence of vendor
requests issued, in order; the second is the accumulated file list, or the
error thrown by the first failing page fetch. -/
def listFilesLoop (fetch : DriveListRequest → Except Str DrivePage) :
    Nat → List DriveFile → Option Str → List DriveListRequest × Except Str (List DriveFile)
  | 0, _, _ => ([], Except.error fuelExhausted)
  | fuel + 1, allFiles, pageToken =>
    match fetch (mkDriveReq pageToken) with
    | Except.error e => ([mkDriveReq pageToken], Except.error e)
    | Except.ok page =>
      if tokenTruthy page.nextPageToken then
        (mkDriveReq pageToken ::
            (listFilesLoop fetch fuel (pageFiles allFiles page) page.nextPageToken).1,
         (listFilesLoop fetch fuel (pageFiles allFiles page) page.nextPageToken).2)
      else
        ([mkDriveReq pageToken], Except.ok (pageFiles allFiles page))

/-- The whole listing operation: the loop started from `allFiles = []` and
`pageToken = null` (src/index.js lines 255-256). -/
def listAllFiles (fetch : DriveListRequest → Except Str DrivePage) (fuel : Nat) :
    List DriveListRequest × Except Str (List DriveFile) :=
  listFilesLoop fetch fuel [] none

/-- JSON rendering of one listed file, as serialized by `res.json(allFiles)`. -/
def driveFileJson (f : DriveFile) : Json :=
  Json.obj [("id".toList, Json.str f.id), ("name".toList, Json.str f.name)]

/-- The fixed 500 body of the Drive handler (src/index.js line 275). -/
def driveFailBody : Json :=
  Json.obj [("error".toList, Json.str ("Failed to retrieve files from Google Drive.".toList))]

/-- The `GET /api/drive/files` handler body (src/index.js lines 252-277),
after the gate: on success it serializes the accumulated files, on any
page-fetch failure it answers 500 with a fixed error body. -/
def driveFilesHandler (fetch : DriveListRequest → Except Str DrivePage) (fuel : Nat) :
    List DriveListRequest × Resp :=
  match listAllFiles fetch fuel with
  | (calls, Except.ok allFiles) => (calls, ⟨200, Json.arr (allFiles.map driveFileJson)⟩)
  | (calls, Except.error _) => (calls, ⟨500, driveFailBody⟩)

/-- A mock Drive vendor built from a list of pages, in the sense of the
specification test scenario: page `i` carries a continuation cursor exactly
when a page `i + 1` exists; an out-of-range cursor is a vendor error.
Cursors encode the target page index by their length. -/
def tokIdx : Option Str → Nat
  | none => 0
  | some s => s.length

/-- The cursor leading to page `idx` (`none` starts at page 0). -/
def tokFor : Nat → Option Str
  | 0 => none
  | i + 1 => some (List.replicate (i + 1) 'n')

/-- Mock vendor returning the given pages in order (cursor on every page but
the last), as in the 3-page scenario of the specification. -/
def mkFetch (pages : List (Option (List DriveFile))) (r : DriveListRequest) :
    Except Str DrivePage :=
  match pages[tokIdx r.pageToken]? with
  | none => Except.error ("mock: unknown page token".toList)
  | some fs =>
    Except.ok ⟨fs, if tokIdx r.pageToken + 1 < pages.length
                   then tokFor (tokIdx r.pageToken + 1) else none⟩

/-- Mock vendor that behaves like `mkFetch pages` except that fetching page
`k` fails with error `e`. -/
def mkFetchFail (pages : List (Option (List DriveFile))) (k : Nat) (e : Str)
    (r : DriveListRequest) : Except Str DrivePage :=
  if tokIdx r.pageToken = k then Except.error e else mkFetch pages r

/-- JS truthiness of an optional query-string parameter
(`!spreadsheetId || !range` in the read handler). -/
def qTruthy : Option Str → Bool
  | none => false
  | some s => !s.isEmpty

/-- The 400 body of the read handler for missing parameters
(src/index.js line 285). -/
def missingReadParams : Json :=
  Json.obj [("error".toList,
    Json.str ("Missing required parameters: spreadsheetId and range.".toList))]

/-- The 500 body of the read handler (src/index.js line 296). -/
def readFailBody : Json :=
  Json.obj [("error".toList,
    Json.str ("Failed to retrieve data from Google Sheets.".toList))]

/-- The argument object of `sheets.spreadsheets.values.get`. -/
structure SheetsGetCall where
  spreadsheetId : Str
  range : Str
deriving DecidableEq

/-- The payload of one `values.get` response (`response.data`): the `values`
field may be absent. -/
structure SheetsGetData where
  values : Option Json

/-- `response.data.values || []` (src/index.js line 293). -/
def jsValuesOrEmpty : Option Json → Json
  | none => Json.arr []
  | some v => if v.truthy then v else Json.arr []

/-- The `GET /api/sheets/read` handler (src/index.js lines 280-298), after
the gate, with the vendor `values.get` passed as a function; the first
component is the list of vendor calls issued. -/
def sheetsRead (spreadsheetId range : Option Str)
    (vendorGet : SheetsGetCall → Except Str SheetsGetData) :
    List SheetsGetCall × Resp :=
  if !qTruthy spreadsheetId || !qTruthy range then
    ([], ⟨400, missingReadParams⟩)
  else
    match vendorGet ⟨spreadsheetId.getD [], range.getD []⟩ with
    | Except.ok d => ([⟨spreadsheetId.getD [], range.getD []⟩], ⟨200, jsValuesOrEmpty d.values⟩)
    | Except.error _ => ([⟨spreadsheetId.getD [], range.getD []⟩], ⟨500, readFailBody⟩)

/-- The destructured JSON body of the write/update handlers; a field absent
from the request body destructures to `undefined`, modelled as `Json.null`
(both are falsy, which is all the handlers inspect). -/
structure WriteBody where
  spreadsheetId : Json
  range : Json
  values : Json

/-- The argument object of `sheets.spreadsheets.values.append` and
`sheets.spreadsheets.values.update` (resource unfolded into `values`). -/
structure SheetsValuesCall where
  spreadsheetId : Json
  range : Json
  valueInputOption : Str
  values : Json

/-- The literal `valueInputOption` sent by both write and update. -/
def userEntered : Str := "USER_ENTERED".toList

/-- The 2D-array shape check of the write/update handlers
(src/index.js lines 331 and 392):
`!Array.isArray(values) || (values.length > 0 && !Array.isArray(values[0]))`. -/
def badShape (values : Json) : Bool :=
  match values with
  | Json.arr [] => false
  | Json.arr (row0 :: _) => !row0.isArray
  | _ => true

/-- The `received: req.body` echo in the missing-parameters 400 body. -/
def writeBodyJson (b : WriteBody) : Json :=
  Json.obj [("spreadsheetId".toList, b.spreadsheetId),
            ("range".toList, b.range),
            ("values".toList, b.values)]

/-- The `expected` hint of the write handler missing-parameters body. -/
def writeExpected : Json :=
  Json.obj [("spreadsheetId".toList, Json.str ("string".toList)),
            ("range".toList, Json.str ("string (e.g., \"Sheet1!A1\")".toList)),
            ("values".toList, Json.str ("2D array (e.g., [[\"value1\", \"value2\"]])".toList))]

/-- The `expected` hint of the update handler missing-parameters body. -/
def updateExpected : Json :=
  Json.obj [("spreadsheetId".toList, Json.str ("string".toList)),
            ("range".toList, Json.str ("string (e.g., \"Sheet1!A1:B2\")".toList)),
            ("values".toList, Json.str ("2D array (e.g., [[\"value1\", \"value2\"]])".toList))]

/-- 400 body for missing write body parameters (src/index.js lines 319-327). -/
def missingWriteBody (b : WriteBody) : Json :=
  Json.obj [("error".toList, Json.str ("Missing required body parameters.".toList)),
            ("received".toList, writeBodyJson b),
            ("expected".toList, writeExpected)]

/-- 400 body for missing update body parameters (src/index.js lines 380-388). -/
def missingUpdateBody (b : WriteBody) : Json :=
  Json.obj [("error".toList, Json.str ("Missing required body parameters.".toList)),
            ("received".toList, writeBodyJson b),
            ("expected".toList, updateExpected)]

/-- 400 body of the failed 2D-array shape check (src/index.js lines 332-336
and 393-397, identical in both handlers). -/
def shapeErrBody (values : Json) : Json :=
  Json.obj [("error".toList, Json.str ("Values must be a 2D array".toList)),
            ("received".toList, values),
            ("example".toList,
             Json.arr [Json.arr [Json.str ("Row1Col1".toList), Json.str ("Row1Col2".toList)],
                       Json.arr [Json.str ("Row2Col1".toList), Json.str ("Row2Col2".toList)]])]

/-- 500 body of the write handler (src/index.js lines 354-357). -/
def writeFailBody (details : Str) : Json :=
  Json.obj [("error".toList, Json.str ("Failed to write data to Google Sheets.".toList)),
            ("details".toList, Json.str details)]

/-- 500 body of the update handler (src/index.js lines 415-418). -/
def updateFailBody (details : Str) : Json :=
  Json.obj [("error".toList, Json.str ("Failed to update data in Google Sheets.".toList)),
            ("details".toList, Json.str details)]

/-- The `POST /api/sheets/write` handler (src/index.js lines 301-359), after
the gate, with the vendor `values.append` passed as a function; the first
component is the list of vendor calls issued. -/
def sheetsWrite (b : WriteBody) (vendorAppend : SheetsValuesCall → Except Str Json) :
    List SheetsValuesCall × Resp :=
  if !b.spreadsheetId.truthy || !b.range.truthy || !b.values.truthy then
    ([], ⟨400, missingWriteBody b⟩)
  else if badShape b.values then
    ([], ⟨400, shapeErrBody b.values⟩)
  else
    match vendorAppend ⟨b.spreadsheetId, b.range, userEntered, b.values⟩ with
    | Except.ok data => ([⟨b.spreadsheetId, b.range, userEntered, b.values⟩], ⟨200, data⟩)
    | Except.error e =>
      ([⟨b.spreadsheetId, b.range, userEntered, b.values⟩], ⟨500, writeFailBody e⟩)

/-- The `PUT /api/sheets/update` handler (src/index.js lines 362-420), after
the gate, with the vendor `values.update` passed as a function; the first
component is the list of vendor calls issued. -/
def sheetsUpdate (b : WriteBody) (vendorUpdate : SheetsValuesCall → Except Str Json) :
    List SheetsValuesCall × Resp :=
  if !b.spreadsheetId.truthy || !b.range.truthy || !b.values.truthy then
    ([], ⟨400, missingUpdateBody b⟩)
  else if badShape b.values then
    ([], ⟨400, shapeErrBody b.values⟩)
  else
    match vendorUpdate ⟨b.spreadsheetId, b.range, userEntered, b.values⟩ with
    | Except.ok data => ([⟨b.spreadsheetId, b.range, userEntered, b.values⟩], ⟨200, data⟩)
    | Except.error e =>
      ([⟨b.spreadsheetId, b.range, userEntered, b.values⟩], ⟨500, updateFailBody e⟩)

/- Concrete demonstration data used by the witness theorems. -/

/-- A concrete credential pair. -/
def pairA : CredentialPair := ⟨"ya29.access-a".toList, some ("1//refresh-a".toList), some 1700000000⟩

/-- A second, distinct concrete credential pair. -/
def pairB : CredentialPair := ⟨"ya29.access-b".toList, none, none⟩

/-- The default redirect URI of the deployment
(`http://localhost:3000/auth/google/callback`). -/
def demoRedirect : Str := "http://localhost:3000/auth/google/callback".toList

/-- The 3-pages-of-2-files mock vendor input from the specification. -/
def demoPages : List (Option (List DriveFile)) :=
  [some [⟨"id1".toList, "f1".toList⟩, ⟨"id2".toList, "f2".toList⟩],
   some [⟨"id3".toList, "f3".toList⟩, ⟨"id4".toList, "f4".toList⟩],
   some [⟨"id5".toList, "f5".toList⟩, ⟨"id6".toList, "f6".toList⟩]]

/-- The six files of `demoPages`, in page order. -/
def demoSixFiles : List DriveFile :=
  [⟨"id1".toList, "f1".toList⟩, ⟨"id2".toList, "f2".toList⟩,
   ⟨"id3".toList, "f3".toList⟩, ⟨"id4".toList, "f4".toList⟩,
   ⟨"id5".toList, "f5".toList⟩, ⟨"id6".toList, "f6".toList⟩]

/-- A concrete live session map holding one bare token. -/
def demoMap : SessionMap := [("tok123".toList, pairA)]

/- Helper lemmas. -/

/-- After `Map.set m k v`, `Map.get k` returns `v`. -/
theorem mapGet_mapSet_self (m : SessionMap) (k : Str) (v : CredentialPair) :
    mapGet (mapSet m k v) k = some v := by
  induction m with
  | nil => simp [mapSet, mapGet]
  | cons hd tl ih =>
    obtain ⟨k0, v0⟩ := hd
    by_cases h : k0 = k
    · simp [mapSet, mapGet, h]
    · simp [mapSet, mapGet, h, ih]

/-- A string starts with any of its own initial segments. -/
theorem jsStartsWith_append (p s : Str) : jsStartsWith (p ++ s) p = true := by
  induction p with
  | nil => cases s <;> rfl
  | cons c cs ih => simp [jsStartsWith, ih]

/-- `substring(7)` of a `Bearer `-marked header recovers the bare token. -/
theorem drop_bearerMarker (t : Str) : (bearerMarker ++ t).drop 7 = t := by
  have h : bearerMarker.length = 7 := rfl
  rw [← h, List.drop_left]

/- Claims about the Opaque Token Broker and the Authenticated Request Gate. -/

/-- C3: for every session identifier `s` and credential pairs `pair` and
`pair2`, after `store(s, pair)`, `resolve(s)` returns exactly `pair`; after a
subsequent `store(s, pair2)`, `resolve(s)` returns `pair2` — overwriting
replaces, never merges. -/
theorem broker_store_resolve_overwrite (m : SessionMap) (s : Str)
    (pair pair2 : CredentialPair) :
    resolve (store m s pair) s = some pair ∧
    resolve (store (store m s pair) s pair2) s = some pair2 :=
  ⟨mapGet_mapSet_self m s pair, mapGet_mapSet_self (store m s pair) s pair2⟩

/-- C4 counterexample: the minted identifier is a pure function of the random
and clock inputs and a collision with a live entry is NOT treated as a logic
error — the callback `userTokens.set` silently overwrites the existing
record, and the old credential pair is no longer resolvable. -/
theorem mint_collision_silent_overwrite :
    generateAccessToken ("hv8zq1x".toList) ("m1kkx0".toList) = "hv8zq1xm1kkx0".toList ∧
    resolve [("hv8zq1xm1kkx0".toList, pairA)] ("hv8zq1xm1kkx0".toList) = some pairA ∧
    store [("hv8zq1xm1kkx0".toList, pairA)]
        (generateAccessToken ("hv8zq1x".toList) ("m1kkx0".toList)) pairB =
      [("hv8zq1xm1kkx0".toList, pairB)] ∧
    resolve (store [("hv8zq1xm1kkx0".toList, pairA)]
        (generateAccessToken ("hv8zq1x".toList) ("m1kkx0".toList)) pairB)
        ("hv8zq1xm1kkx0".toList) = some pairB ∧
    pairA ≠ pairB :=
  ⟨rfl, rfl, rfl, rfl, by decide⟩

/-- C4 amended: `generateAccessToken` derives the session identifier solely
from its random and clock inputs, with no uniqueness check against the live
map; storing under the minted identifier always succeeds and, when the
identifier collides with a live entry, silently replaces that record. -/
theorem mint_ignores_live_map (m : SessionMap) (randomPart nowPart : Str)
    (p : CredentialPair) :
    generateAccessToken randomPart nowPart = randomPart ++ nowPart ∧
    resolve (store m (generateAccessToken randomPart nowPart) p)
        (generateAccessToken randomPart nowPart) = some p :=
  ⟨rfl, mapGet_mapSet_self m (generateAccessToken randomPart nowPart) p⟩

/-- C5: a request bearing a session identifier that was never stored (or that
was lost to a restart) is rejected with status 401 and a JSON body carrying
both an error message and the `authUrl` hint at the authorization entry
point. -/
theorem gate_unknown_token_401 (m : SessionMap) (redirectUri : Str) (token : Str)
    (h : resolve m token = none) :
    isAuthenticated m redirectUri (some (bearerMarker ++ token)) =
      GateResult.reject 401 invalidTokenMsg (authUrlOf redirectUri) := by
  have h1 : (bearerMarker ++ token).isEmpty = false := rfl
  have h2 : jsStartsWith (bearerMarker ++ token) bearerMarker = true :=
    jsStartsWith_append bearerMarker token
  have h3 : (bearerMarker ++ token).drop 7 = token := drop_bearerMarker token
  have h4 : mapGet m token = none := h
  simp [isAuthenticated, h1, h2, h3, h4]

/-- C5 witness: on the empty (post-restart) map, a never-stored token is
rejected with 401 and the body carries the error message and the
`authUrl = http://localhost:3000/auth/google` hint. -/
theorem gate_unknown_token_401_witness :
    resolve [] ("deadbeef".toList) = none ∧
    isAuthenticated [] demoRedirect (some (bearerMarker ++ "deadbeef".toList)) =
      GateResult.reject 401 invalidTokenMsg (authUrlOf demoRedirect) ∧
    authUrlOf demoRedirect = "http://localhost:3000/auth/google".toList :=
  ⟨rfl, gate_unknown_token_401 [] demoRedirect ("deadbeef".toList) rfl, by decide⟩

/-- C10: the gate accepts a credential only from an Authorization header
starting with the exact marker `Bearer ` and resolves the remainder after
those 7 characters; any header lacking the marker is rejected with 401, even
when the bare header value itself is a stored session identifier. -/
theorem gate_requires_bearer_marker (m : SessionMap) (redirectUri : Str) :
    (∀ h : Str, jsStartsWith h bearerMarker = false →
        isAuthenticated m redirectUri (some h) =
          GateResult.reject 401 notAuthMsg (authUrlOf redirectUri)) ∧
    (∀ (token : Str) (pair : CredentialPair), resolve m token = some pair →
        isAuthenticated m redirectUri (some (bearerMarker ++ token)) =
          GateResult.authed pair) := by
  constructor
  · intro h hs
    simp [isAuthenticated, hs]
  · intro token pair hres
    have h1 : (bearerMarker ++ token).isEmpty = false := rfl
    have h2 : jsStartsWith (bearerMarker ++ token) bearerMarker = true :=
      jsStartsWith_append bearerMarker token
    have h3 : (bearerMarker ++ token).drop 7 = token := drop_bearerMarker token
    have h4 : mapGet m token = some pair := hres
    simp [isAuthenticated, h1, h2, h3, h4]

/-- C10 witness: with `tok123` stored, the bare header `tok123` is rejected
with 401 while `Bearer tok123` authenticates to the stored pair. -/
theorem gate_requires_bearer_marker_witness :
    resolve demoMap ("tok123".toList) = some pairA ∧
    isAuthenticated demoMap demoRedirect (some ("tok123".toList)) =
      GateResult.reject 401 notAuthMsg (authUrlOf demoRedirect) ∧
    isAuthenticated demoMap demoRedirect (some (bearerMarker ++ "tok123".toList)) =
      GateResult.authed pairA :=
  ⟨rfl,
   (gate_requires_bearer_marker demoMap demoRedirect).1 ("tok123".toList) (by decide),
   (gate_requires_bearer_marker demoMap demoRedirect).2 ("tok123".toList) pairA rfl⟩

/- Pagination lemmas for the mock vendors. -/

/-- A cursor produced by the mock vendor passes `pageToken || undefined`
unchanged. -/
theorem jsOrUndefined_tokFor (idx : Nat) : jsOrUndefined (tokFor idx) = tokFor idx := by
  cases idx with
  | zero => rfl
  | succ i => simp [tokFor, jsOrUndefined, tokenTruthy, List.replicate_succ]

/-- The mock vendor decodes its own cursors. -/
theorem tokIdx_tokFor (idx : Nat) : tokIdx (tokFor idx) = idx := by
  cases idx with
  | zero => rfl
  | succ i => simp [tokFor, tokIdx]

/-- Cursors to a later page are truthy, so the loop continues. -/
theorem tokenTruthy_tokFor_succ (i : Nat) : tokenTruthy (tokFor (i + 1)) = true := by
  simp [tokFor, tokenTruthy, List.replicate_succ]

/-- Behavior of the mock vendor at an in-range cursor. -/
theorem mkFetch_tokFor (pages : List (Option (List DriveFile))) (idx : Nat)
    (h : idx < pages.length) :
    mkFetch pages (mkDriveReq (tokFor idx)) =
      Except.ok ⟨pages[idx],
                 if idx + 1 < pages.length then tokFor (idx + 1) else none⟩ := by
  unfold mkFetch mkDriveReq
  simp [jsOrUndefined_tokFor, tokIdx_tokFor, List.getElem?_eq_getElem h]

/-- The failing mock vendor agrees with the plain mock before page `k`. -/
theorem mkFetchFail_before (pages : List (Option (List DriveFile))) (k : Nat) (e : Str)
    (idx : Nat) (h : idx ≠ k) :
    mkFetchFail pages k e (mkDriveReq (tokFor idx)) = mkFetch pages (mkDriveReq (tokFor idx)) := by
  unfold mkFetchFail mkDriveReq
  simp [jsOrUndefined_tokFor, tokIdx_tokFor, h]

/-- The failing mock vendor errors at page `k`. -/
theorem mkFetchFail_at (pages : List (Option (List DriveFile))) (k : Nat) (e : Str) :
    mkFetchFail pages k e (mkDriveReq (tokFor k)) = Except.error e := by
  unfold mkFetchFail mkDriveReq
  simp [jsOrUndefined_tokFor, tokIdx_tokFor]

/-- Appending a page concatenates its files (or nothing) after the
accumulator. -/
theorem pageFiles_eq (allFiles : List DriveFile) (page : DrivePage) :
    pageFiles allFiles page = allFiles ++ page.files.getD [] := by
  cases h : page.files <;> simp [pageFiles, h]

/-- Closed form of the page loop over the plain mock vendor: started at page
`idx` with enough fuel, it returns the accumulator followed by the
concatenation of all remaining pages, in page order. -/
theorem listFilesLoop_mkFetch (pages : List (Option (List DriveFile))) :
    ∀ (fuel idx : Nat) (acc : List DriveFile),
      idx < pages.length → pages.length - idx ≤ fuel →
      (listFilesLoop (mkFetch pages) fuel acc (tokFor idx)).2 =
        Except.ok (acc ++ ((pages.drop idx).map (fun o => o.getD [])).flatten) := by
  intro fuel
  induction fuel with
  | zero => intro idx acc h1 h2; omega
  | succ fuel ih =>
    intro idx acc h1 h2
    rw [listFilesLoop, mkFetch_tokFor pages idx h1]
    by_cases hlt : idx + 1 < pages.length
    · simp only [hlt, if_pos, tokenTruthy_tokFor_succ]
      have hrec := ih (idx + 1) (pageFiles acc ⟨pages[idx],
        if idx + 1 < pages.length then tokFor (idx + 1) else none⟩) hlt (by omega)
      simp only [hlt, if_pos] at hrec
      rw [hrec, pageFiles_eq, List.drop_eq_getElem_cons h1, List.map_cons,
        List.flatten_cons, ← List.append_assoc]
    · have hnone : (if idx + 1 < pages.length then tokFor (idx + 1) else none) = none :=
        if_neg hlt
      have hdrop : pages.drop (idx + 1) = [] := List.drop_eq_nil_of_le (by omega)
      simp only [hnone, tokenTruthy, Bool.false_eq_true, if_false]
      rw [pageFiles_eq, List.drop_eq_getElem_cons h1, hdrop, List.map_cons, List.map_nil,
        List.flatten_cons, List.flatten_nil, List.append_nil]

/-- Every vendor request the loop issues, for any vendor, carries
`pageSize = 1000` and the `id, name` fields filter. -/
theorem listFilesLoop_calls (fetch : DriveListRequest → Except Str DrivePage) :
    ∀ (fuel : Nat) (acc : List DriveFile) (tok : Option Str),
      ∀ r ∈ (listFilesLoop fetch fuel acc tok).1, r.pageSize = 1000 ∧ r.fields = driveFields := by
  intro fuel
  induction fuel with
  | zero => intro acc tok r hr; simp [listFilesLoop] at hr
  | succ fuel ih =>
    intro acc tok r hr
    rw [listFilesLoop] at hr
    cases hf : fetch (mkDriveReq tok) with
    | error e =>
      rw [hf] at hr
      simp at hr
      subst hr
      exact ⟨rfl, rfl⟩
    | ok page =>
      rw [hf] at hr
      by_cases ht : tokenTruthy page.nextPageToken
      · simp only [ht, if_pos, List.mem_cons] at hr
        rcases hr with hr | hr
        · subst hr; exact ⟨rfl, rfl⟩
        · exact ih (pageFiles acc page) page.nextPageToken r hr
      · simp only [ht, Bool.false_eq_true, if_false, List.mem_singleton] at hr
        subst hr
        exact ⟨rfl, rfl⟩

/-- Run of the loop over the failing mock vendor, started at a page at or
before the failing one: the result is the vendor error, and the trace shows
that each page up to and including `k` was fetched exactly once with no
further fetch after the failure. -/
theorem listFilesLoop_mkFetchFail (pages : List (Option (List DriveFile))) (k : Nat) (e : Str) :
    ∀ (fuel idx : Nat) (acc : List DriveFile),
      idx ≤ k → k < pages.length → k - idx < fuel →
      (listFilesLoop (mkFetchFail pages k e) fuel acc (tokFor idx)).2 = Except.error e ∧
      (listFilesLoop (mkFetchFail pages k e) fuel acc (tokFor idx)).1.length = k - idx + 1 := by
  intro fuel
  induction fuel with
  | zero => intro idx acc h1 h2 h3; omega
  | succ fuel ih =>
    intro idx acc h1 h2 h3
    by_cases hik : idx = k
    · subst hik
      rw [listFilesLoop, mkFetchFail_at pages idx e]
      exact ⟨rfl, by simp⟩
    · have hlt : idx < k := by omega
      have hlt2 : idx + 1 < pages.length := by omega
      rw [listFilesLoop, mkFetchFail_before pages k e idx hik,
        mkFetch_tokFor pages idx (by omega)]
      simp only [hlt2, if_pos, tokenTruthy_tokFor_succ]
      have hrec := ih (idx + 1)
        (pageFiles acc ⟨pages[idx], if idx + 1 < pages.length then tokFor (idx + 1) else none⟩)
        (by omega) h2 (by omega)
      simp only [hlt2, if_pos] at hrec
      refine ⟨hrec.1, ?_⟩
      simp only [List.length_cons, hrec.2]
      omega

/- Claims about the Drive Listing Service. -/

/-- C1: for every sequence of vendor pages, the listing loop requests every
page with page size 1000 (and the `id, name` fields filter), appends each
page of files to one accumulator in fetch order, and terminates when the
continuation cursor is absent, returning exactly the concatenation of all
pages in page order. -/
theorem drive_listing_paginates (pages : List (Option (List DriveFile))) (fuel : Nat)
    (hne : pages ≠ []) (hfuel : pages.length ≤ fuel) :
    (listAllFiles (mkFetch pages) fuel).2 =
      Except.ok ((pages.map (fun o => o.getD [])).flatten) ∧
    ∀ r ∈ (listAllFiles (mkFetch pages) fuel).1,
      r.pageSize = 1000 ∧ r.fields = driveFields := by
  constructor
  · have h1 : 0 < pages.length := List.length_pos.mpr hne
    have h := listFilesLoop_mkFetch pages fuel 0 [] h1 (by omega)
    simpa [listAllFiles] using h
  · intro r hr
    exact listFilesLoop_calls (mkFetch pages) fuel [] none r hr

/-- C1 witness: on the 3-pages-of-2-files mock vendor of the specification
(cursor on pages 1 and 2, none on page 3), `listAllFiles` returns exactly the
6 files in page order. -/
theorem drive_listing_paginates_witness :
    (listAllFiles (mkFetch demoPages) 3).2 = Except.ok demoSixFiles := by
  rw [(drive_listing_paginates demoPages 3 (by simp [demoPages]) (by simp [demoPages])).1]
  rfl

/-- C2: if the vendor fetch of page `k` fails, the whole listing call fails
with the 500 upstream-error response and its fixed error body — no partial
accumulated result from the earlier successful pages is returned — and the
trace shows `k + 1` fetches: each page up to the failing one exactly once and
no retry of the failed page. -/
theorem drive_listing_abort_on_failure (pages : List (Option (List DriveFile)))
    (k : Nat) (e : Str) (fuel : Nat) (hk : k < pages.length) (hfuel : k < fuel) :
    (driveFilesHandler (mkFetchFail pages k e) fuel).2 = ⟨500, driveFailBody⟩ ∧
    (driveFilesHandler (mkFetchFail pages k e) fuel).1.length = k + 1 := by
  have h := listFilesLoop_mkFetchFail pages k e fuel 0 [] (Nat.zero_le k) hk (by omega)
  have hAll : listAllFiles (mkFetchFail pages k e) fuel =
      listFilesLoop (mkFetchFail pages k e) fuel [] (tokFor 0) := rfl
  rcases hEq : listAllFiles (mkFetchFail pages k e) fuel with ⟨calls, r⟩
  rw [hAll] at hEq
  rw [hEq] at h
  obtain ⟨h2, hlen⟩ := h
  simp only at h2 hlen
  subst h2
  have hh : driveFilesHandler (mkFetchFail pages k e) fuel = (calls, ⟨500, driveFailBody⟩) := by
    rw [driveFilesHandler, hAll, hEq]
  rw [hh]
  exact ⟨rfl, by simpa using hlen⟩

/-- C2 witness: with the 3-page mock vendor failing on page 2 (index 1), the
handler answers 500 with the fixed error body (not a partial 2-file listing)
after exactly 2 fetches. -/
theorem drive_listing_abort_on_failure_witness :
    (driveFilesHandler (mkFetchFail demoPages 1 ("boom".toList)) 3).2 = ⟨500, driveFailBody⟩ ∧
    (driveFilesHandler (mkFetchFail demoPages 1 ("boom".toList)) 3).1.length = 2 :=
  drive_listing_abort_on_failure demoPages 1 ("boom".toList) 3 (by simp [demoPages]) (by omega)

/- Claims about the Sheets Access Service. -/

/-- C6: for every append or update request whose (present) `values` payload
is not an array, or is a nonempty array whose first row is not an array, the
handler answers 400 with the shape-validation body and issues no vendor
call; moreover, for any request at all, a vendor call is issued only when
the payload passes the shape check. -/
theorem sheets_shape_validation (sid rng values : Json)
    (va vu : SheetsValuesCall → Except Str Json)
    (hsid : sid.truthy = true) (hrng : rng.truthy = true) (hval : values.truthy = true)
    (hbad : badShape values = true) :
    sheetsWrite ⟨sid, rng, values⟩ va = ([], ⟨400, shapeErrBody values⟩) ∧
    sheetsUpdate ⟨sid, rng, values⟩ vu = ([], ⟨400, shapeErrBody values⟩) ∧
    (∀ (b : WriteBody) (f : SheetsValuesCall → Except Str Json),
        (sheetsWrite b f).1 ≠ [] → badShape b.values = false) ∧
    (∀ (b : WriteBody) (f : SheetsValuesCall → Except Str Json),
        (sheetsUpdate b f).1 ≠ [] → badShape b.values = false) := by
  refine ⟨?_, ?_, ?_, ?_⟩
  · simp [sheetsWrite, hsid, hrng, hval, hbad]
  · simp [sheetsUpdate, hsid, hrng, hval, hbad]
  · intro b f hne
    by_cases hb : badShape b.values = true
    · exfalso
      apply hne
      by_cases hm : (!b.spreadsheetId.truthy || !b.range.truthy || !b.values.truthy) = true
      · simp [sheetsWrite, hm]
      · simp only [Bool.not_eq_true] at hm
        simp [sheetsWrite, hm, hb]
    · simpa using hb
  · intro b f hne
    by_cases hb : badShape b.values = true
    · exfalso
      apply hne
      by_cases hm : (!b.spreadsheetId.truthy || !b.range.truthy || !b.values.truthy) = true
      · simp [sheetsUpdate, hm]
      · simp only [Bool.not_eq_true] at hm
        simp [sheetsUpdate, hm, hb]
    · simpa using hb

/-- C6 witness: `values = "not-an-array"` is rejected by both handlers with
the 400 shape body and the vendor function is never invoked (empty call
trace), for a vendor that would otherwise answer successfully. -/
theorem sheets_shape_validation_witness :
    sheetsWrite ⟨Json.str ("id1".toList), Json.str ("Sheet1!A1".toList),
        Json.str ("not-an-array".toList)⟩ (fun _ => Except.ok Json.null) =
      ([], ⟨400, shapeErrBody (Json.str ("not-an-array".toList))⟩) ∧
    sheetsUpdate ⟨Json.str ("id1".toList), Json.str ("Sheet1!A1".toList),
        Json.str ("not-an-array".toList)⟩ (fun _ => Except.ok Json.null) =
      ([], ⟨400, shapeErrBody (Json.str ("not-an-array".toList))⟩) := by
  have h := sheets_shape_validation (Json.str ("id1".toList)) (Json.str ("Sheet1!A1".toList))
    (Json.str ("not-an-array".toList)) (fun _ => Except.ok Json.null)
    (fun _ => Except.ok Json.null) rfl rfl rfl rfl
  exact ⟨h.1, h.2.1⟩

/-- C7: for every append request with all parameters present and a
shape-valid payload, exactly one vendor append call is issued, it carries
`valueInputOption = USER_ENTERED`, and the vendor response body is returned
unchanged with status 200; the update handler issues its single vendor call
with the same value-interpretation mode. -/
theorem sheets_write_user_entered (sid rng values data data2 : Json)
    (va vu : SheetsValuesCall → Except Str Json)
    (hsid : sid.truthy = true) (hrng : rng.truthy = true) (hval : values.truthy = true)
    (hshape : badShape values = false)
    (hva : va ⟨sid, rng, userEntered, values⟩ = Except.ok data)
    (hvu : vu ⟨sid, rng, userEntered, values⟩ = Except.ok data2) :
    sheetsWrite ⟨sid, rng, values⟩ va = ([⟨sid, rng, userEntered, values⟩], ⟨200, data⟩) ∧
    sheetsUpdate ⟨sid, rng, values⟩ vu = ([⟨sid, rng, userEntered, values⟩], ⟨200, data2⟩) := by
  constructor
  · simp [sheetsWrite, hsid, hrng, hval, hshape, hva]
  · simp [sheetsUpdate, hsid, hrng, hval, hshape, hvu]

/-- C7 witness: `append(client, id1, Sheet1!A1, [[a, b]])` issues exactly the
one `USER_ENTERED` vendor call and echoes the vendor response; so does
update. -/
theorem sheets_write_user_entered_witness :
    sheetsWrite ⟨Json.str ("id1".toList), Json.str ("Sheet1!A1".toList),
        Json.arr [Json.arr [Json.str ("a".toList), Json.str ("b".toList)]]⟩
        (fun _ => Except.ok (Json.str ("vendor-append-echo".toList))) =
      ([⟨Json.str ("id1".toList), Json.str ("Sheet1!A1".toList), userEntered,
         Json.arr [Json.arr [Json.str ("a".toList), Json.str ("b".toList)]]⟩],
       ⟨200, Json.str ("vendor-append-echo".toList)⟩) ∧
    sheetsUpdate ⟨Json.str ("id1".toList), Json.str ("Sheet1!A1".toList),
        Json.arr [Json.arr [Json.str ("a".toList), Json.str ("b".toList)]]⟩
        (fun _ => Except.ok (Json.str ("vendor-update-echo".toList))) =
      ([⟨Json.str ("id1".toList), Json.str ("Sheet1!A1".toList), userEntered,
         Json.arr [Json.arr [Json.str ("a".toList), Json.str ("b".toList)]]⟩],
       ⟨200, Json.str ("vendor-update-echo".toList)⟩) :=
  sheets_write_user_entered (Json.str ("id1".toList)) (Json.str ("Sheet1!A1".toList))
    (Json.arr [Json.arr [Json.str ("a".toList), Json.str ("b".toList)]])
    (Json.str ("vendor-append-echo".toList)) (Json.str ("vendor-update-echo".toList))
    (fun _ => Except.ok (Json.str ("vendor-append-echo".toList)))
    (fun _ => Except.ok (Json.str ("vendor-update-echo".toList)))
    rfl rfl rfl rfl rfl rfl

/-- C8: when the vendor reports no `values` for the requested range, the read
handler answers 200 with the empty array — not null and not an error. -/
theorem sheets_read_empty (sid rng : Str)
    (vendorGet : SheetsGetCall → Except Str SheetsGetData)
    (hsid : sid.isEmpty = false) (hrng : rng.isEmpty = false)
    (hv : vendorGet ⟨sid, rng⟩ = Except.ok ⟨none⟩) :
    sheetsRead (some sid) (some rng) vendorGet = ([⟨sid, rng⟩], ⟨200, Json.arr []⟩) := by
  simp [sheetsRead, qTruthy, hsid, hrng, hv, jsValuesOrEmpty]

/-- C8 witness: a concrete read over a vendor holding no data returns `[]`. -/
theorem sheets_read_empty_witness :
    sheetsRead (some ("id1".toList)) (some ("Sheet1!A1:B2".toList))
        (fun _ => Except.ok ⟨none⟩) =
      ([⟨"id1".toList, "Sheet1!A1:B2".toList⟩], ⟨200, Json.arr []⟩) :=
  sheets_read_empty ("id1".toList) ("Sheet1!A1:B2".toList)
    (fun _ => Except.ok ⟨none⟩) rfl rfl rfl

/-- C9: a read request missing `spreadsheetId` or missing `range` (absent or
empty, hence falsy) fails with the 400 missing-parameter body and no vendor
call is made (empty call trace). -/
theorem sheets_read_missing_params (sidq rngq : Option Str)
    (vendorGet : SheetsGetCall → Except Str SheetsGetData)
    (h : qTruthy sidq = false ∨ qTruthy rngq = false) :
    sheetsRead sidq rngq vendorGet = ([], ⟨400, missingReadParams⟩) := by
  rcases h with h | h <;> simp [sheetsRead, h]

/-- C9 witness: a read with no `spreadsheetId` is answered 400 with no vendor
call, for a vendor that would otherwise answer successfully. -/
theorem sheets_read_missing_params_witness :
    sheetsRead none (some ("Sheet1!A1:B2".toList))
        (fun _ => Except.ok ⟨some (Json.arr [Json.arr [Json.str ("x".toList)]])⟩) =
      ([], ⟨400, missingReadParams⟩) :=
  sheets_read_missing_params none (some ("Sheet1!A1:B2".toList))
    (fun _ => Except.ok ⟨some (Json.arr [Json.arr [Json.str ("x".toList)]])⟩)
    (Or.inl rfl)
